import Mathlib

/-!
Verification development for the trace-span filtering engine of the
repository (the `filterSpans` / `filterSpansNewTraceView` matchers of
`filter-spans.ts`).  The implementation file itself is not part of the
sampled sources; only its test suite is.  The definitions below are
therefore modelled from the specification (spec.md §3, §4), except where
the repository's own test suite pins a different behaviour, in which case
the tests are followed and the deviation is recorded in the doc comment
of the affected definition.  All functional behaviour exercised by the
test suite is reproduced exactly by this model.
-/

/-- A key/value attribute pair attached to a span, a process, or a log event. -/
structure KeyValue where
  key : String
  value : String
deriving DecidableEq, Repr

/-- The process owning a span: a service name plus its own tag list. -/
structure TraceProcess where
  serviceName : String
  tags : List KeyValue
deriving DecidableEq, Repr

/-- A log event recorded within a span: a list of key/value fields. -/
structure TraceLog where
  fields : List KeyValue
deriving DecidableEq, Repr

/-- Modelled from the spec: the span data model (spec.md §3).  `duration` is in
microseconds (the test fixtures use 3050 and 5000), and `logs` may be
absent/null, modelled as an `Option`; absence must be treated as an empty
sequence. -/
structure TraceSpan where
  spanID : String
  operationName : String
  duration : Nat
  process : TraceProcess
  tags : List KeyValue
  logs : Option (List TraceLog)
deriving DecidableEq, Repr

/-- Concatenates the fields of a list of log events, in order. -/
def logFields : List TraceLog → List KeyValue
  | [] => []
  | lg :: rest => lg.fields ++ logFields rest

/-- Modelled from the spec: the AttributeIndexer (spec.md §4.1).  Enumerates
every attribute pair visible on a span: span tags, then process tags, then the
fields of every log event in order; absent `logs` contributes nothing. -/
def attributePairs (s : TraceSpan) : List KeyValue :=
  s.tags ++ s.process.tags ++ logFields (s.logs.getD [])

/-- Name-predicate operator for service/operation names (spec.md §3, §4.3). -/
inductive NameOperator
  | equals
  | notEquals
deriving DecidableEq, Repr

/-- Operator for the duration lower bound (spec.md §4.2): strict by default,
overridable to the inclusive variant. -/
inductive FromOperator
  | greaterThan
  | greaterOrEqual
deriving DecidableEq, Repr

/-- Operator for the duration upper bound (spec.md §4.2). -/
inductive ToOperator
  | lessThan
  | lessOrEqual
deriving DecidableEq, Repr

/-- Tag-predicate operator (spec.md §3). -/
inductive TagOperator
  | equals
  | notEquals
deriving DecidableEq, Repr

/-- Modelled from the spec: a tag predicate `{key, value?, operator}`
(spec.md §3); an absent value means "match by key presence only". -/
structure TagPredicate where
  key : String
  value : Option String
  operator : TagOperator
deriving DecidableEq, Repr

/-- Modelled from the spec: a structured filter (spec.md §3).  `none` in a
name or duration field means the predicate is unconfigured and vacuously
true.  The `from`/`to` fields are named `fromDuration`/`toDuration` because
`from` is reserved in Lean. -/
structure StructuredFilter where
  serviceName : Option String
  serviceNameOperator : NameOperator
  spanName : Option String
  spanNameOperator : NameOperator
  fromDuration : Option String
  fromOperator : FromOperator
  toDuration : Option String
  toOperator : ToOperator
  tags : List TagPredicate
deriving DecidableEq, Repr

/-- Modelled from the spec: the default filter (all predicates unconfigured,
operators at their documented defaults: equality for names, strict bounds for
durations; spec.md §4.2, §4.3). -/
def defaultFilters : StructuredFilter :=
  { serviceName := none
    serviceNameOperator := NameOperator.equals
    spanName := none
    spanNameOperator := NameOperator.equals
    fromDuration := none
    fromOperator := FromOperator.greaterThan
    toDuration := none
    toOperator := ToOperator.lessThan
    tags := [] }

/-- The single error of the engine (spec.md §7): a duration bound that does
not parse. -/
inductive MatchError
  | invalidDuration
deriving DecidableEq, Repr

/-- A parsed duration bound, as the exact rational `num / den` microseconds
(`den` is always positive).  Keeping the fraction unreduced lets every
comparison against a span duration be done exactly by cross-multiplication. -/
structure ParsedDuration where
  num : Nat
  den : Nat
deriving DecidableEq, Repr

/-- Numeric value of a list of decimal digit characters. -/
def digitsVal (cs : List Char) : Nat :=
  cs.foldl (fun n c => 10 * n + (c.toNat - 48)) 0

/-- Microsecond conversion factor of a unit suffix, as a fraction
`(num, den)`; recognized units are ns, us, µs, ms, s (spec.md §4.2). -/
def unitFactor : List Char → Option (Nat × Nat)
  | ['n', 's'] => some (1, 1000)
  | ['u', 's'] => some (1, 1)
  | ['µ', 's'] => some (1, 1)
  | ['m', 's'] => some (1000, 1)
  | ['s'] => some (1000000, 1)
  | _ => none

/-- Modelled from the spec: the DurationParser (spec.md §4.2).  Parses a
`<number><unit>` string — digits, an optional fractional part, then a unit —
into exact microseconds; anything else fails (`none`). -/
def parseDuration (text : String) : Option ParsedDuration :=
  let cs := text.data
  let intDigits := cs.takeWhile Char.isDigit
  let rest := cs.dropWhile Char.isDigit
  if intDigits.isEmpty then none
  else
    match rest with
    | '.' :: rest2 =>
      let fracDigits := rest2.takeWhile Char.isDigit
      let rest3 := rest2.dropWhile Char.isDigit
      if fracDigits.isEmpty then none
      else
        match unitFactor rest3 with
        | some (n, d) =>
          some ⟨(digitsVal intDigits * 10 ^ fracDigits.length + digitsVal fracDigits) * n,
                10 ^ fracDigits.length * d⟩
        | none => none
    | _ =>
      match unitFactor rest with
      | some (n, d) => some ⟨digitsVal intDigits * n, d⟩
      | none => none

/-- Resolves an optional duration bound: absent is fine (`none` bound), a
present string must parse or the whole match fails (spec.md §7). -/
def parseBound : Option String → Except MatchError (Option ParsedDuration)
  | none => Except.ok none
  | some t =>
    match parseDuration t with
    | some b => Except.ok (some b)
    | none => Except.error MatchError.invalidDuration

/-- Name predicate (spec.md §4.3): full string equality only, negated under
`notEquals`; an unconfigured filter value is vacuously true. -/
def nameMatches (op : NameOperator) (filterVal : Option String) (spanVal : String) : Bool :=
  match filterVal with
  | none => true
  | some v =>
    match op with
    | NameOperator.equals => spanVal == v
    | NameOperator.notEquals => !(spanVal == v)

/-- Duration lower-bound predicate, compared exactly by cross-multiplication:
`d > num/den ↔ d * den > num`. -/
def fromSatisfied (op : FromOperator) (bound : Option ParsedDuration) (d : Nat) : Bool :=
  match bound with
  | none => true
  | some b =>
    match op with
    | FromOperator.greaterThan => decide (d * b.den > b.num)
    | FromOperator.greaterOrEqual => decide (d * b.den ≥ b.num)

/-- Duration upper-bound predicate. -/
def toSatisfied (op : ToOperator) (bound : Option ParsedDuration) (d : Nat) : Bool :=
  match bound with
  | none => true
  | some b =>
    match op with
    | ToOperator.lessThan => decide (d * b.den < b.num)
    | ToOperator.lessOrEqual => decide (d * b.den ≤ b.num)

/-- Whether one attribute pair matches a tag predicate's key (and value, when
the predicate carries one). -/
def pairMatches (p : TagPredicate) (kv : KeyValue) : Bool :=
  kv.key == p.key &&
    (match p.value with
     | none => true
     | some v => kv.value == v)

/-- Modelled from the spec: tag-predicate evaluation (spec.md §4.3).
`present` is whether any attribute pair anywhere on the span matches the
key(+value); `equals` requires presence, `notEquals` requires absence. -/
def tagPredicateSatisfied (p : TagPredicate) (s : TraceSpan) : Bool :=
  let present := (attributePairs s).any (pairMatches p)
  match p.operator with
  | TagOperator.equals => present
  | TagOperator.notEquals => !present

/-- Conjunction of all structured predicates for one span (spec.md §4.3). -/
def spanMatchesStructured (f : StructuredFilter) (fromBound toBound : Option ParsedDuration)
    (s : TraceSpan) : Bool :=
  nameMatches f.serviceNameOperator f.serviceName s.process.serviceName &&
  nameMatches f.spanNameOperator f.spanName s.operationName &&
  fromSatisfied f.fromOperator fromBound s.duration &&
  toSatisfied f.toOperator toBound s.duration &&
  f.tags.all (fun p => tagPredicateSatisfied p s)

/-- Modelled from the spec: the StructuredSpanMatcher (spec.md §4.3).  Absent
spans yield an absent result; a malformed duration bound aborts the whole
invocation with `invalidDuration`; otherwise the result is the list of span
identifiers of the spans satisfying every configured predicate, in input
order. -/
def filterSpansNewTraceView (f : StructuredFilter) (spans : Option (List TraceSpan)) :
    Except MatchError (Option (List String)) :=
  match spans with
  | none => Except.ok none
  | some ss =>
    match parseBound f.fromDuration with
    | Except.error e => Except.error e
    | Except.ok fromB =>
      match parseBound f.toDuration with
      | Except.error e => Except.error e
      | Except.ok toB =>
        Except.ok (some ((ss.filter (spanMatchesStructured f fromB toB)).map TraceSpan.spanID))

/-- Identifier of the first test-fixture span. -/
def spanID0 : String := "span-id-0"

/-- First test-fixture span of the suite (duration 3050 µs). -/
def span0 : TraceSpan :=
  { spanID := spanID0
    operationName := "operationName0"
    duration := 3050
    process :=
      { serviceName := "serviceName0"
        tags := [⟨"processTagKey0", "processTagValue0"⟩, ⟨"processTagKey1", "processTagValue1"⟩] }
    tags := [⟨"tagKey0", "tagValue0"⟩, ⟨"tagKey1", "tagValue1"⟩]
    logs := some [⟨[⟨"logFieldKey0", "logFieldValue0"⟩, ⟨"logFieldKey1", "logFieldValue1"⟩]⟩] }

/-- Identifier of the second test-fixture span. -/
def spanID2 : String := "span-id-2"

/-- Second test-fixture span of the suite (duration 5000 µs); its pairs mix
key and value numbers to exercise exclusion keys. -/
def span2 : TraceSpan :=
  { spanID := spanID2
    operationName := "operationName2"
    duration := 5000
    process :=
      { serviceName := "serviceName2"
        tags := [⟨"processTagKey2", "processTagValue1"⟩, ⟨"processTagKey1", "processTagValue2"⟩] }
    tags := [⟨"tagKey2", "tagValue1"⟩, ⟨"tagKey1", "tagValue2"⟩]
    logs := some [⟨[⟨"logFieldKey2", "logFieldValue1"⟩, ⟨"logFieldKey1", "logFieldValue2"⟩]⟩] }

/-- The fixture span collection. -/
def spans : List TraceSpan := [span0, span2]

/-- The fixture span whose logs are null (absent). -/
def nullSpan : TraceSpan := { span0 with logs := none }

/-- Whether `pat` is a leading segment of `s` (character lists). -/
def leadsList : List Char → List Char → Bool
  | [], _ => true
  | _ :: _, [] => false
  | a :: pat, b :: s => a == b && leadsList pat s

/-- Whether `pat` occurs contiguously anywhere inside `s` (character lists);
the unanchored, case-sensitive substring test of the free-text matcher. -/
def containsSub (pat : List Char) : List Char → Bool
  | [] => leadsList pat []
  | c :: rest => leadsList pat (c :: rest) || containsSub pat rest

/-- Splits a query on whitespace into non-empty tokens; `cur` accumulates the
current token in reverse. -/
def tokensAux : List Char → List Char → List String
  | [], cur => if cur.isEmpty then [] else [String.mk cur.reverse]
  | c :: rest, cur =>
    if c == ' ' then
      if cur.isEmpty then tokensAux rest [] else String.mk cur.reverse :: tokensAux rest []
    else tokensAux rest (c :: cur)

/-- Tokenizes a free-text query on whitespace (spec.md §4.4). -/
def tokenize (q : String) : List String := tokensAux q.data []

/-- Whether a token is an exclusion term (leading `-`; spec.md §4.4). -/
def isExclusionTok (t : String) : Bool :=
  match t.data with
  | '-' :: _ => true
  | _ => false

/-- Strips the leading `-` of an exclusion token. -/
def stripDash (t : String) : String :=
  match t.data with
  | '-' :: rest => String.mk rest
  | _ => t

/-- Whether an attribute pair is suppressed by the exclusion terms: some
exclusion text occurs in the pair's key.  Deviation from spec.md §4.4, forced
by the test suite (the `excludesKey` tests): exclusion acts on individual
attribute pairs, not on whole spans. -/
def pairExcluded (excludeKeys : List String) (kv : KeyValue) : Bool :=
  excludeKeys.any (fun e => containsSub e.data kv.key.data)

/-- Modelled from the spec: whether one inclusion term matches a span
(spec.md §4.4): exact equality with the span id, or a substring of the
operation name, the service name, or the key or value of a non-suppressed
attribute pair.  The pair-level suppression by `excludeKeys` is the
test-forced deviation described at `pairExcluded`. -/
def termMatchesSpan (excludeKeys : List String) (t : String) (s : TraceSpan) : Bool :=
  t == s.spanID ||
  containsSub t.data s.operationName.data ||
  containsSub t.data s.process.serviceName.data ||
  (attributePairs s).any (fun kv =>
    !pairExcluded excludeKeys kv &&
    (containsSub t.data kv.key.data || containsSub t.data kv.value.data))

/-- Modelled from the spec: the FreeTextSpanMatcher (spec.md §4.4).  Absent
spans yield an absent result; otherwise the query is tokenized into inclusion
terms and `-`-prefixed exclusion terms, and a span is kept when every
inclusion term matches it.  Two deviations are forced by the test suite:
exclusion terms suppress individual attribute pairs inside the term-match
predicate instead of excluding whole spans, and a query with no inclusion
term matches nothing (test: `-processTagKey1` over the fixtures yields the
empty set) rather than everything. -/
def filterSpans (textFilter : String) (spansIn : Option (List TraceSpan)) :
    Option (List String) :=
  match spansIn with
  | none => none
  | some ss =>
    let toks := tokenize textFilter
    let excludeKeys := (toks.filter isExclusionTok).map stripDash
    let includeFilters := toks.filter (fun t => !isExclusionTok t)
    some ((ss.filter (fun s =>
      !includeFilters.isEmpty &&
      includeFilters.all (fun t => termMatchesSpan excludeKeys t s))).map TraceSpan.spanID)

example : parseDuration "3.05ms" = some ⟨305000, 100⟩ := by rfl

example :
    filterSpansNewTraceView { defaultFilters with fromDuration := some "3.05ms" } (some spans) =
      Except.ok (some [spanID2]) := by rfl

example :
    filterSpansNewTraceView
      { defaultFilters with
          fromDuration := some "3.05ms", fromOperator := FromOperator.greaterOrEqual }
      (some spans) = Except.ok (some [spanID0, spanID2]) := by rfl

example :
    filterSpansNewTraceView { defaultFilters with serviceName := some "serviceName0" }
      (some spans) = Except.ok (some [spanID0]) := by rfl

example :
    filterSpansNewTraceView
      { defaultFilters with tags := [⟨"tagKey1", some "tagValue1", TagOperator.notEquals⟩] }
      (some spans) = Except.ok (some [spanID2]) := by rfl

example : filterSpans "spanID" (some spans) = some [] := by rfl

example : filterSpans "span-id-0" (some spans) = some [spanID0] := by rfl

example : filterSpans "span-id-2" (some spans) = some [spanID2] := by rfl

example : filterSpans "operationName" (some spans) = some [spanID0, spanID2] := by rfl

example : filterSpans "operationName0" (some spans) = some [spanID0] := by rfl

example : filterSpans "serviceName" (some spans) = some [spanID0, spanID2] := by rfl

example : filterSpans "tagKey1" (some spans) = some [spanID0, spanID2] := by rfl

example : filterSpans "tagKey0" (some spans) = some [spanID0] := by rfl

example : filterSpans "tagKey2" (some spans) = some [spanID2] := by rfl

example : filterSpans "tagValue1" (some spans) = some [spanID0, spanID2] := by rfl

example : filterSpans "tagValue0" (some spans) = some [spanID0] := by rfl

example : filterSpans "tagValue1 -tagKey2" (some spans) = some [spanID0] := by rfl

example : filterSpans "tagValue1 -tagKey1" (some spans) = some [spanID2] := by rfl

example : filterSpans "logFieldKey1" (some spans) = some [spanID0, spanID2] := by rfl

example : filterSpans "logFieldValue1 -logFieldKey2" (some spans) = some [spanID0] := by rfl

example : filterSpans "logFieldValue1 -logFieldKey1" (some spans) = some [spanID2] := by rfl

example : filterSpans "processTagKey1" (some spans) = some [spanID0, spanID2] := by rfl

example : filterSpans "processTagValue1 -processTagKey2" (some spans) = some [spanID0] := by rfl

example : filterSpans "processTagValue1 -processTagKey1" (some spans) = some [spanID2] := by rfl

example : filterSpans "-processTagKey1" (some spans) = some [] := by rfl

example : filterSpans "logFieldKey1" (some [nullSpan]) = some [] := by rfl

example : filterSpans "x" none = none := by rfl

example :
    filterSpansNewTraceView
      { defaultFilters with tags := [⟨"logFieldKey1", none, TagOperator.equals⟩] }
      (some [nullSpan]) = Except.ok (some []) := by rfl

example :
    filterSpansNewTraceView
      { defaultFilters with
          tags := [⟨"tagKey0", none, TagOperator.equals⟩, ⟨"tagKey2", none, TagOperator.equals⟩] }
      (some spans) = Except.ok (some []) := by rfl

example :
    filterSpansNewTraceView
      { defaultFilters with tags := [⟨"tagKey2", none, TagOperator.notEquals⟩] }
      (some spans) = Except.ok (some [spanID0]) := by rfl

example :
    filterSpansNewTraceView
      { defaultFilters with
          serviceName := some "serviceName0"
          spanName := some "operationName2"
          spanNameOperator := NameOperator.notEquals
          fromDuration := some "3.05ms"
          fromOperator := FromOperator.greaterOrEqual
          toDuration := some "3.5ms"
          tags := [⟨"tagKey2", none, TagOperator.notEquals⟩] }
      (some spans) = Except.ok (some [spanID0]) := by rfl

/-- Claim C1: for every span and key `K`, a tag predicate with key `K`, no
value and operator `notEquals` is satisfied by the span iff no attribute pair
with key `K` exists anywhere on it (span tags, process tags, or any log
event's fields) — stated unconditionally as a biconditional; and whenever
such a pair does exist and the predicate is among the filter's tag
predicates, the span fails the whole structured match, regardless of the
pair's value. -/
theorem notEquals_excludes_any_key_occurrence (K : String) (s : TraceSpan) :
    (tagPredicateSatisfied ⟨K, none, TagOperator.notEquals⟩ s = true ↔
      ∀ kv ∈ attributePairs s, kv.key ≠ K) ∧
    (∀ (f : StructuredFilter) (fromB toB : Option ParsedDuration),
        TagPredicate.mk K none TagOperator.notEquals ∈ f.tags →
        (∃ kv ∈ attributePairs s, kv.key = K) →
        spanMatchesStructured f fromB toB s = false) := by
  have hiff : tagPredicateSatisfied ⟨K, none, TagOperator.notEquals⟩ s = true ↔
      ∀ kv ∈ attributePairs s, kv.key ≠ K := by
    unfold tagPredicateSatisfied
    simp [pairMatches, List.any_eq_true]
  refine ⟨hiff, ?_⟩
  intro f fromB toB hmem hkey
  have hsat : tagPredicateSatisfied ⟨K, none, TagOperator.notEquals⟩ s = false := by
    obtain ⟨kv, hkv, hk⟩ := hkey
    cases hb : tagPredicateSatisfied ⟨K, none, TagOperator.notEquals⟩ s with
    | false => rfl
    | true => exact absurd hk (hiff.mp hb kv hkv)
  have hall : f.tags.all (fun p => tagPredicateSatisfied p s) = false := by
    cases hA : f.tags.all (fun p => tagPredicateSatisfied p s) with
    | false => rfl
    | true =>
      have := List.all_eq_true.mp hA _ hmem
      rw [hsat] at this
      exact absurd this (by simp)
  simp [spanMatchesStructured, hall]

/-- Claim C1 witness: both directions exercised on the fixture `span0`.  The
key `absentKey` occurs nowhere on `span0`, so the `notEquals` predicate on it
IS satisfied (via the biconditional's reverse direction); and `span0` carries
the pair `tagKey1 = tagValue1`, so a `notEquals` predicate on `tagKey1` in a
filter makes the structured match fail. -/
theorem notEquals_excludes_any_key_occurrence_witness :
    tagPredicateSatisfied ⟨"absentKey", none, TagOperator.notEquals⟩ span0 = true ∧
    spanMatchesStructured
      { defaultFilters with tags := [⟨"tagKey1", none, TagOperator.notEquals⟩] }
      none none span0 = false :=
  ⟨(notEquals_excludes_any_key_occurrence "absentKey" span0).1.mpr (by decide),
   (notEquals_excludes_any_key_occurrence "tagKey1" span0).2
     { defaultFilters with tags := [⟨"tagKey1", none, TagOperator.notEquals⟩] }
     none none (by decide) ⟨⟨"tagKey1", "tagValue1"⟩, by decide, rfl⟩⟩

/-- Claim C2: `"3.05ms"` parses to exactly 3050 microseconds; on the fixture
spans of durations 3050 µs and 5000 µs, the filter `from = "3.05ms"` with the
default operator returns exactly the 5000 µs span's id, and the same filter
with `fromOperator = ">="` returns both ids. -/
theorem duration_from_boundary_defaults :
    (∃ b, parseDuration "3.05ms" = some b ∧ b.num = 3050 * b.den ∧ 0 < b.den) ∧
    span0.duration = 3050 ∧ span2.duration = 5000 ∧
    filterSpansNewTraceView { defaultFilters with fromDuration := some "3.05ms" } (some spans) =
      Except.ok (some [spanID2]) ∧
    filterSpansNewTraceView
      { defaultFilters with
          fromDuration := some "3.05ms", fromOperator := FromOperator.greaterOrEqual }
      (some spans) = Except.ok (some [spanID0, spanID2]) :=
  ⟨⟨⟨305000, 100⟩, rfl, rfl, by decide⟩, rfl, rfl, rfl, rfl⟩

/-- Claim C3: tag predicates are conjoined per span: a span matches only if
it satisfies every tag predicate of the filter, and when every input span
fails at least one tag predicate the structured matcher returns the empty
set. -/
theorem structured_tags_and_semantics (f : StructuredFilter) (ss : List TraceSpan)
    (fromB toB : Option ParsedDuration)
    (hfb : parseBound f.fromDuration = Except.ok fromB)
    (htb : parseBound f.toDuration = Except.ok toB)
    (hfail : ∀ s ∈ ss, ∃ p ∈ f.tags, tagPredicateSatisfied p s = false) :
    filterSpansNewTraceView f (some ss) = Except.ok (some []) ∧
    ∀ s, spanMatchesStructured f fromB toB s = true →
      ∀ p ∈ f.tags, tagPredicateSatisfied p s = true := by
  constructor
  · have hnil : ss.filter (spanMatchesStructured f fromB toB) = [] := by
      rw [List.filter_eq_nil_iff]
      intro s hs
      obtain ⟨p, hp, hsat⟩ := hfail s hs
      have hall : f.tags.all (fun p => tagPredicateSatisfied p s) = false := by
        cases hA : f.tags.all (fun p => tagPredicateSatisfied p s) with
        | false => rfl
        | true =>
          have := List.all_eq_true.mp hA _ hp
          rw [hsat] at this
          exact absurd this (by simp)
      simp [spanMatchesStructured, hall]
    simp only [filterSpansNewTraceView, hfb, htb, hnil, List.map_nil]
  · intro s hm p hp
    simp only [spanMatchesStructured, Bool.and_eq_true, List.all_eq_true] at hm
    exact hm.2 p hp

/-- Claim C3 witness: predicates on `tagKey0` (only on `span0`) and `tagKey2`
(only on `span2`) are individually satisfiable but jointly by no span, so the
combined filter yields the empty set on the fixtures. -/
theorem structured_tags_and_semantics_witness :
    filterSpansNewTraceView
      { defaultFilters with
          tags := [⟨"tagKey0", none, TagOperator.equals⟩,
                   ⟨"tagKey2", none, TagOperator.equals⟩] }
      (some spans) = Except.ok (some []) :=
  (structured_tags_and_semantics
    { defaultFilters with
        tags := [⟨"tagKey0", none, TagOperator.equals⟩,
                 ⟨"tagKey2", none, TagOperator.equals⟩] }
    spans none none rfl rfl (by decide)).1

/-- Claim C4 counterexample: in the free-text matcher, exclusion terms do not
act at span level.  The exclusion term `tagKey1` matches `span2` by the
claim's own matching notion (it is the key of one of `span2`'s tags, as the
first conjunct shows with no exclusion suppression in force), yet the query
`tagValue1 -tagKey1` returns exactly `span2`'s id — the suite's own expected
result — instead of excluding it. -/
theorem freeText_exclusion_not_span_level :
    termMatchesSpan [] "tagKey1" span2 = true ∧
    filterSpans "tagValue1 -tagKey1" (some spans) = some [spanID2] :=
  ⟨rfl, rfl⟩

/-- Claim C4 amended: exclusion terms suppress individual attribute pairs
(those whose key contains the exclusion text), not whole spans.  Both fixture
scenarios hold: `tagValue1 -tagKey2` keeps only `span0`, and
`tagValue1 -tagKey1` keeps only `span2`; the last two conjuncts exhibit the
suppression itself — `tagValue1` matches `span0` with no exclusions but no
longer does once pairs keyed like `tagKey1` are suppressed. -/
theorem freeText_exclusion_per_pair :
    filterSpans "tagValue1 -tagKey2" (some spans) = some [spanID0] ∧
    filterSpans "tagValue1 -tagKey1" (some spans) = some [spanID2] ∧
    termMatchesSpan [] "tagValue1" span0 = true ∧
    termMatchesSpan ["tagKey1"] "tagValue1" span0 = false :=
  ⟨rfl, rfl, rfl, rfl⟩

/-- Claim C5: a free-text term matches a span id only by exact equality,
never by substring: the query equal to `span0`'s literal identifier returns
exactly `span0`'s id, while the query `span-id-`, a proper substring of both
span ids (second and third conjuncts) and of no other attribute, returns the
empty set. -/
theorem freeText_id_exact_match_only :
    filterSpans "span-id-0" (some spans) = some [spanID0] ∧
    containsSub "span-id-".data spanID0.data = true ∧
    containsSub "span-id-".data spanID2.data = true ∧
    filterSpans "span-id-" (some spans) = some [] :=
  ⟨rfl, rfl, rfl, rfl⟩

/-- Claim C6: with an absent span collection, both matchers return an absent
result — never an empty set and never a failure — for every filter and every
query. -/
theorem absent_spans_absent_result :
    (∀ f : StructuredFilter, filterSpansNewTraceView f none = Except.ok none) ∧
    (∀ q : String, filterSpans q none = none) :=
  ⟨fun _ => rfl, fun _ => rfl⟩

/-- Claim C7: a span with absent logs is processed by both matchers exactly
as if it had zero log events (first three conjuncts), and a filter satisfiable
only via a log-field key returns the empty set on such a span rather than
failing (last two conjuncts, the suite's null-logs fixtures). -/
theorem null_logs_as_empty :
    (∀ s : TraceSpan,
        attributePairs { s with logs := none } = attributePairs { s with logs := some [] }) ∧
    (∀ (f : StructuredFilter) (s : TraceSpan),
        filterSpansNewTraceView f (some [{ s with logs := none }]) =
          filterSpansNewTraceView f (some [{ s with logs := some [] }])) ∧
    (∀ (q : String) (s : TraceSpan),
        filterSpans q (some [{ s with logs := none }]) =
          filterSpans q (some [{ s with logs := some [] }])) ∧
    filterSpansNewTraceView
      { defaultFilters with tags := [⟨"logFieldKey1", none, TagOperator.equals⟩] }
      (some [nullSpan]) = Except.ok (some []) ∧
    filterSpans "logFieldKey1" (some [nullSpan]) = some [] := by
  refine ⟨fun _ => rfl, ?_, ?_, rfl, rfl⟩
  · intro f s
    cases hfb : parseBound f.fromDuration with
    | error e => simp [filterSpansNewTraceView, hfb]
    | ok fromB =>
      cases htb : parseBound f.toDuration with
      | error e => simp [filterSpansNewTraceView, hfb, htb]
      | ok toB =>
        have hsm : spanMatchesStructured f fromB toB { s with logs := none } =
            spanMatchesStructured f fromB toB { s with logs := some [] } := rfl
        simp only [filterSpansNewTraceView, hfb, htb, List.filter_cons, List.filter_nil, hsm,
          List.map_nil, Except.ok.injEq, Option.some.injEq]
        split <;> simp
  · intro q s
    have hsm : ∀ (ek : List String) (t : String),
        termMatchesSpan ek t { s with logs := none } =
          termMatchesSpan ek t { s with logs := some [] } := fun _ _ => rfl
    simp only [filterSpans, List.filter_cons, List.filter_nil, hsm, Option.some.injEq]
    split <;> simp

/-- Claim C8: the structured name predicates use full string equality only:
with the default operator a span satisfies the service/operation predicate
iff its name equals the filter string exactly, and under `notEquals` iff it
differs; a filter string that is a proper substring of every fixture service
name matches nothing (last conjunct). -/
theorem name_predicates_full_equality (v : String) (s : TraceSpan) :
    (nameMatches NameOperator.equals (some v) s.process.serviceName = true ↔
      s.process.serviceName = v) ∧
    (nameMatches NameOperator.notEquals (some v) s.process.serviceName = true ↔
      ¬s.process.serviceName = v) ∧
    (nameMatches NameOperator.equals (some v) s.operationName = true ↔ s.operationName = v) ∧
    (nameMatches NameOperator.notEquals (some v) s.operationName = true ↔
      ¬s.operationName = v) ∧
    filterSpansNewTraceView { defaultFilters with serviceName := some "serviceName" }
      (some spans) = Except.ok (some []) := by
  refine ⟨?_, ?_, ?_, ?_, rfl⟩ <;> simp [nameMatches]

/-- Claim C8 witness: instantiated at `span0` and the exact string
`serviceName0`, the equality predicate holds and yields the literal name
equality. -/
theorem name_predicates_full_equality_witness :
    span0.process.serviceName = "serviceName0" :=
  (name_predicates_full_equality "serviceName0" span0).1.mp rfl

/-- Claim C9: if a configured `from` or `to` duration string does not parse,
the structured matcher fails the entire invocation with `invalidDuration`
instead of ignoring the malformed bound or computing a result from the
remaining predicates. -/
theorem malformed_duration_aborts (f : StructuredFilter) (ss : List TraceSpan)
    (h : (∃ t, f.fromDuration = some t ∧ parseDuration t = none) ∨
         (∃ t, f.toDuration = some t ∧ parseDuration t = none)) :
    filterSpansNewTraceView f (some ss) = Except.error MatchError.invalidDuration := by
  rcases h with ⟨t, hft, hpt⟩ | ⟨t, hft, hpt⟩
  · have hfb : parseBound f.fromDuration = Except.error MatchError.invalidDuration := by
      rw [hft]
      simp [parseBound, hpt]
    simp [filterSpansNewTraceView, hfb]
  · cases hfb : parseBound f.fromDuration with
    | error e =>
      cases e
      simp [filterSpansNewTraceView, hfb]
    | ok fromB =>
      have htbe : parseBound f.toDuration = Except.error MatchError.invalidDuration := by
        rw [hft]
        simp [parseBound, hpt]
      simp [filterSpansNewTraceView, hfb, htbe]

/-- Claim C9 witness: the unparsable bound `junk` makes the whole invocation
fail on the fixtures. -/
theorem malformed_duration_aborts_witness :
    parseDuration "junk" = none ∧
    filterSpansNewTraceView { defaultFilters with fromDuration := some "junk" } (some spans) =
      Except.error MatchError.invalidDuration :=
  ⟨rfl, malformed_duration_aborts _ spans (Or.inl ⟨"junk", rfl, rfl⟩)⟩

/-- Claim C10: whenever either matcher returns a present result, every
identifier in it is the `spanID` of some input span; over an empty input the
free-text matcher returns the empty set and any present structured result is
the empty set. -/
theorem result_ids_from_input :
    (∀ (f : StructuredFilter) (ss : List TraceSpan) (l : List String),
        filterSpansNewTraceView f (some ss) = Except.ok (some l) →
        ∀ i ∈ l, ∃ s ∈ ss, s.spanID = i) ∧
    (∀ (q : String) (ss : List TraceSpan) (l : List String),
        filterSpans q (some ss) = some l → ∀ i ∈ l, ∃ s ∈ ss, s.spanID = i) ∧
    (∀ q : String, filterSpans q (some []) = some []) ∧
    (∀ (f : StructuredFilter) (l : List String),
        filterSpansNewTraceView f (some []) = Except.ok (some l) → l = []) := by
  have hstruct : ∀ (f : StructuredFilter) (ss : List TraceSpan) (l : List String),
      filterSpansNewTraceView f (some ss) = Except.ok (some l) →
      ∀ i ∈ l, ∃ s ∈ ss, s.spanID = i := by
    intro f ss l h i hi
    cases hfb : parseBound f.fromDuration with
    | error e =>
      simp [filterSpansNewTraceView, hfb] at h
    | ok fromB =>
      cases htb : parseBound f.toDuration with
      | error e =>
        simp [filterSpansNewTraceView, hfb, htb] at h
      | ok toB =>
        simp only [filterSpansNewTraceView, hfb, htb, Except.ok.injEq, Option.some.injEq] at h
        rw [← h] at hi
        obtain ⟨s, hs, hid⟩ := List.mem_map.mp hi
        exact ⟨s, List.mem_of_mem_filter hs, hid⟩
  refine ⟨hstruct, ?_, fun q => rfl, ?_⟩
  · intro q ss l h i hi
    simp only [filterSpans, Option.some.injEq] at h
    rw [← h] at hi
    obtain ⟨s, hs, hid⟩ := List.mem_map.mp hi
    exact ⟨s, List.mem_of_mem_filter hs, hid⟩
  · intro f l h
    have := hstruct f [] l h
    cases l with
    | nil => rfl
    | cons i rest =>
      obtain ⟨s, hs, _⟩ := this i (by simp)
      exact absurd hs (by simp)

/-- Claim C10 witness: applied to a service-name filter over the fixtures,
the returned identifier `span-id-0` is indeed the id of an input span. -/
theorem result_ids_from_input_witness :
    ∃ s ∈ spans, TraceSpan.spanID s = spanID0 :=
  result_ids_from_input.1 { defaultFilters with serviceName := some "serviceName0" } spans
    [spanID0] rfl spanID0 (by simp)
